import Mathlib

/-!
Verification development for the sxapi low-level client library
(`sxapi/low.py`).  The Python classes `BaseAPI`, `PublicAPIv2`,
`LowLevelPublicAPI` and `LowLevelInternAPI` are shallowly embedded as
pure Lean functions: the mutable client object becomes an explicit
`Client` record, wall-clock time becomes an explicit `now : Int`
argument, and the HTTP transport becomes an explicit response argument
(the response the server would produce for the issued request).  Raised
Python exceptions become `Except ApiError` results, and the list of
HTTP requests a method performs is returned explicitly so that claims
of the form "no HTTP call is performed" can be stated.
-/

/-- Errors raised by the client.  The Python code raises `ValueError`,
`HTTPError` and `NotImplementedError`; the spec names the same
conditions `ConfigurationError`, `InvalidCredentialsError`, generic
HTTP error and `UnsupportedOperationError`, and we use the spec's
taxonomy for the constructor names while the *conditions* are taken
from the code. -/
inductive ApiError where
  | configurationError : String → ApiError
  | invalidCredentials : ApiError
  | httpError : Nat → String → ApiError
  | unsupportedOperation : ApiError
  | valueError : String → ApiError
  | jsonError : ApiError
  deriving DecidableEq, Repr

/-- HTTP verb of an issued request. -/
inductive Verb where
  | GET | POST | PUT | DELETE
  deriving DecidableEq, Repr

/-- One request handed to the transport layer.  `allowRedirects`
mirrors the `allow_redirects` keyword passed to the underlying
`requests` session (the `requests` default is `true`; `BaseAPI.post`
and `BaseAPI.put` pass `allow_redirects=False` explicitly). -/
structure IssuedRequest where
  verb : Verb
  url : String
  allowRedirects : Bool
  deriving DecidableEq, Repr

/-- Mutable state of a `BaseAPI` instance (`sxapi/low.py`,
`BaseAPI.__init__`): configuration plus session state.  `auth_header`
is the value of the `Authorization` header installed on the session
(`none` until a login happened). -/
structure Client where
  api_base_url : String
  email : Option String
  password : Option String
  api_key : Option String
  session_expiration : Int
  session_key : Option String
  auth_header : Option String
  isAsync : Bool
  deriving DecidableEq, Repr

/-- Embedding of `BaseAPI.to_url` in the case `version_modifier is None`
(the only case the claims exercise): plain concatenation of the base
URL and the path.  The regex version rewrite and the `rstrip("/")`
normalisation of the constructor are not modelled. -/
def to_url (c : Client) (path : String) : String :=
  c.api_base_url ++ path

/-- Response of the token-acquisition endpoint `/user/get_token`:
an HTTP status code and the `token` field of the JSON body (`none`
when the body has no such field or is unparseable). -/
structure TokenResponse where
  status : Nat
  token : Option String
  deriving DecidableEq, Repr

/-- Result of `BaseAPI._login`: the requests issued against the token
endpoint (zero or one) and either an error or the updated client. -/
structure LoginResult where
  calls : List IssuedRequest
  outcome : Except ApiError Client
  deriving Repr

/-- Embedding of `BaseAPI._login` (`sxapi/low.py` lines 90-121).
Faithful to the source: the expiration check `time.time() -
self._session_expiration < 0` returns success immediately; an API key
is installed as bearer credential with an expiration 365 days ahead;
otherwise both email and password are required, a GET against
`/user/get_token` is issued, status 200 falls through, statuses
401/409/422 raise, any other status goes through
`raise_for_status()` which raises exactly for statuses in [400, 600),
and on fall-through the token is read from the JSON body and installed
with an expiration 23 hours ahead. -/
def login (c : Client) (now : Int) (resp : TokenResponse) : LoginResult :=
  if now - c.session_expiration < 0 then
    ⟨[], .ok c⟩
  else
    match c.api_key with
    | some k =>
        ⟨[], .ok { c with
                   session_key := some k,
                   auth_header := some ("Bearer " ++ k),
                   session_expiration := now + 365 * 24 * 60 * 60 }⟩
    | none =>
        match c.email, c.password with
        | some _, some _ =>
            let req : IssuedRequest := ⟨.GET, "/user/get_token", true⟩
            if resp.status = 200 ∨ ¬ (400 ≤ resp.status ∧ resp.status < 600) then
              match resp.token with
              | some tk =>
                  ⟨[req], .ok { c with
                                session_key := some tk,
                                auth_header := some ("Bearer " ++ tk),
                                session_expiration := now + 23 * 60 * 60 }⟩
              | none => ⟨[req], .error .jsonError⟩
            else if resp.status = 401 ∨ resp.status = 409 ∨ resp.status = 422 then
              ⟨[req], .error .invalidCredentials⟩
            else
              ⟨[req], .error (.httpError resp.status "raise_for_status")⟩
        | _, _ =>
            ⟨[], .error (.configurationError
                          "email and password are needed for API access")⟩

/-- One entry of `BaseAPI.requests`, the Python class `Req`
(`sxapi/low.py` lines 21-33).  The Python attribute `end` is called
`endTime` because `end` is a Lean keyword. -/
structure Req where
  url : String
  status : Nat
  start : Int
  endTime : Int
  deriving DecidableEq, Repr

/-- Embedding of `BaseAPI.track_request` (`sxapi/low.py` lines 70-74)
restricted to the `self.requests` list: append the new record, then if
the list length exceeds 100 remove the oldest record (`pop(0)`). -/
def track_request (requests : List Req) (r : Req) : List Req :=
  let rs := requests ++ [r]
  if rs.length > 100 then rs.drop 1 else rs

/-- Response of a generic HTTP call: status code, the optional
`message` field of a JSON error body (`none` when absent or
unparseable), and the JSON body itself, kept opaque as a string. -/
structure HttpResponse where
  status : Nat
  message : Option String
  body : String
  deriving DecidableEq, Repr

/-- Message used for 4xx errors: the `message` field of the JSON error
body, with fallback "unknown" (`sxapi/low.py` lines 184-190). -/
def errMsg (r : HttpResponse) : String :=
  r.message.getD "unknown"

/-- Embedding of `BaseAPI.post` (`sxapi/low.py` lines 174-192) with
`version=None`.  Exactly one request is handed to the transport, with
`allow_redirects=False`; a 301 status raises; a 4xx status raises with
the extracted message; `raise_for_status()` raises for the remaining
statuses in [400, 600); otherwise the JSON body is returned.  The
response `r` is the transport's answer to the single issued request,
so a redirect is never followed by construction. -/
def post (c : Client) (path : String) (r : HttpResponse) :
    List IssuedRequest × Except ApiError String :=
  ([⟨.POST, to_url c path, false⟩],
   if r.status = 301 then .error (.httpError 301 "301 redirect for POST")
   else if 400 ≤ r.status ∧ r.status < 500 then .error (.httpError r.status (errMsg r))
   else if 400 ≤ r.status ∧ r.status < 600 then
     .error (.httpError r.status "raise_for_status")
   else .ok r.body)

/-- Embedding of `BaseAPI.put` (`sxapi/low.py` lines 194-212) with
`version=None`; identical to `post` except for the verb. -/
def put (c : Client) (path : String) (r : HttpResponse) :
    List IssuedRequest × Except ApiError String :=
  ([⟨.PUT, to_url c path, false⟩],
   if r.status = 301 then .error (.httpError 301 "301 redirect for PUT")
   else if 400 ≤ r.status ∧ r.status < 500 then .error (.httpError r.status (errMsg r))
   else if 400 ≤ r.status ∧ r.status < 600 then
     .error (.httpError r.status "raise_for_status")
   else .ok r.body)

/-- Embedding of `BaseAPI.async_get` (`sxapi/low.py` lines 141-172)
with `version=None`.  The transport is abstracted as a function
`server` from URL to response.  On a client without the asynchronous
flag the method raises `NotImplementedError` (spec name:
`UnsupportedOperationError`) and issues nothing.  Otherwise a first
loop issues one GET per path, in order, collecting the futures; a
second loop resolves them in the same order, and any resolution whose
status raises (explicit 4xx check or `raise_for_status`, i.e. any
status in [400, 600)) is caught, printed and skipped, so failed
entries are absent from the result while the rest survive.  Successful
entries are `(body, url)` pairs, as in the source's
`result.append((r.json(), url))`. -/
def async_get (c : Client) (paths : List String) (server : String → HttpResponse) :
    List IssuedRequest × Except ApiError (List (String × String)) :=
  if ¬ c.isAsync then ([], .error .unsupportedOperation)
  else
    let futures := paths.map (fun p => (to_url c p, server (to_url c p)))
    (futures.map (fun f => ⟨.GET, f.1, true⟩),
     .ok (futures.filterMap (fun f =>
       if 400 ≤ f.2.status ∧ f.2.status < 600 then none
       else some (f.2.body, f.1))))

/-- One page of a generic list endpoint: the `data` array and the
`pagination.next_offset` field of the JSON response. -/
structure Page (α : Type) where
  data : List α
  next_offset : Int
  deriving DecidableEq, Repr

/-- Embedding of the pagination loop of
`LowLevelPublicAPI.get_animal_events` (`sxapi/low.py` lines 385-403).
The dispatcher call `self.get("/event/query", params=params)` is
abstracted as `server`, a function of the only parameter the loop
mutates, the `offset`; `limit` stays fixed.  The `while True` loop is
made total with a fuel argument; the result carries the accumulated
`data` arrays and the number of fetches, and `none` means the loop did
not terminate within the given fuel. -/
def get_animal_events {α : Type} (server : Int → Page α) (limit : Nat) (offset : Int) :
    Nat → Option (List α × Nat)
  | 0 => none
  | fuel + 1 =>
      let events := server offset
      if events.data.length < limit then some (events.data, 1)
      else
        match get_animal_events server limit events.next_offset fuel with
        | none => none
        | some (rest, n) => some (events.data ++ rest, n + 1)

/-- Python values as they occur in parameter dicts and data points.
`num` covers Python `int` and `float` (the numeric magnitude of a
float is irrelevant to every claim, only int-ness/float-ness of the
`isinstance` checks matters, so one constructor with an integer
payload suffices).  Python `None` is represented one level up as
`Option PyVal`. -/
inductive PyVal where
  | num : Int → PyVal
  | str : String → PyVal
  | bool : Bool → PyVal
  | list : List PyVal → PyVal

/-- Modelled from the spec: the class `HDict` imported from
`sxapi/models.py` is not part of the provided sources; only its call
sites are.  Spec section 4.4 (Parameter Normalizer): "Ordered mapping
construction where keys mapping to an absent value (sentinel 'not
provided') are dropped from the outgoing representation entirely; all
other values, including falsy ones (0, false, empty sequence), are
preserved and transmitted."  The input dict literal is an ordered list
of key/value pairs where `none` is Python's `None`. -/
def HDict (pairs : List (String × Option PyVal)) : List (String × PyVal) :=
  pairs.filterMap (fun kv => kv.2.map (fun v => (kv.1, v)))

/-- Auxiliary recursion for `splitTimeRange`: emit chunks of size
`c` (clipped to `t`) starting at `f` until `t` is reached, with fuel
bounding the recursion depth. -/
def splitGo (t c : Int) : Int → Nat → List (Int × Int)
  | _, 0 => []
  | f, fuel + 1 =>
      if f < t then (f, min (f + c) t) :: splitGo t c (min (f + c) t) fuel
      else []

/-- Modelled from the spec: `splitTimeRange`, imported from
`sxapi/helper.py`, is not part of the provided sources; only its call
sites `splitTimeRange(from_date, to_date, 100)` are.  Spec section 4.5
(Time-Range Splitter): "Given a start and end timestamp and a maximum
chunk count, produces a lazy, finite, restartable sequence of
`(start, end)` sub-ranges covering the input range with no overlap and
no gaps, each no larger than the configured chunk size", with the
worked example that `[0, 250]` with chunk 100 yields
`[(0,100), (100,200), (200,250)]`.  The fuel `(to_date -
from_date).toNat` suffices for any positive chunk size. -/
def splitTimeRange (from_date to_date chunk : Int) : List (Int × Int) :=
  splitGo to_date chunk from_date (to_date - from_date).toNat

/-- Decidable statement that a list of `(start, end)` pairs covers the
interval from `f` to `t` exactly: the first pair starts at `f`, each
pair is non-degenerate and starts where the previous one ended (no gap,
no overlap), and the last pair ends at `t`. -/
def coversRange (f t : Int) : List (Int × Int) → Bool
  | [] => f == t
  | (s, e) :: rest => s == f && decide (s < e) && coversRange e t rest

/-- Embedding of `LowLevelPublicAPI.get_organisations` (`sxapi/low.py`
lines 332-335): with an API key configured, return the empty list
without dispatching; otherwise issue `GET /organisation` and return the
server's (successful) JSON body `resp`. -/
def get_organisations (c : Client) (resp : PyVal) : List IssuedRequest × PyVal :=
  match c.api_key with
  | some _ => ([], .list [])
  | none => ([⟨.GET, to_url c "/organisation", true⟩], resp)

/-- Python dict item assignment `u[k] = v`: overwrite the value in
place when the key is present, append the pair otherwise. -/
def dict_set (m : List (String × PyVal)) (k : String) (v : PyVal) :
    List (String × PyVal) :=
  if m.any (fun p => p.1 == k) then
    m.map (fun p => if p.1 == k then (k, v) else p)
  else m ++ [(k, v)]

/-- Python dict lookup `u.get(k)`. -/
def dict_get (m : List (String × PyVal)) (k : String) : Option PyVal :=
  (m.find? (fun p => p.1 == k)).map (fun p => p.2)

/-- Embedding of `LowLevelPublicAPI.get_user` (`sxapi/low.py` lines
337-342): with an API key configured, return the literal
`{"type": "apikey"}` without dispatching; otherwise issue `GET /user`,
take the user object `resp` the server answers with, set its `type`
key to `"email"` and return it. -/
def get_user (c : Client) (resp : List (String × PyVal)) :
    List IssuedRequest × List (String × PyVal) :=
  match c.api_key with
  | some _ => ([], [("type", .str "apikey")])
  | none => ([⟨.GET, to_url c "/user", true⟩], dict_set resp "type" (.str "email"))

/-- One element of the `sensordata` argument of the bulk write
methods: a dict with `device_id`, `metric` and a `data` list of
points, each point a pair `(point[0], point[1])` of timestamp and
value. -/
structure SensorEntry where
  device_id : String
  metric : String
  data : List (PyVal × PyVal)

/-- Python `isinstance(x, (int, float))`.  True for `num`; also true
for `bool` because Python's `bool` is a subclass of `int`. -/
def isNumericPy : PyVal → Bool
  | .num _ => true
  | .bool _ => true
  | _ => false

/-- Validation loop shared verbatim by `insertSensorDataBulk`,
`updateSensorDataBulk` and `insertGroupSensorDataBulk`: walk the
points of one entry and raise `ValueError` at the first point whose
timestamp or value is not numeric. -/
def checkPoints : List (PyVal × PyVal) → Except ApiError Unit
  | [] => .ok ()
  | p :: rest =>
      if ¬ isNumericPy p.1 then .error (.valueError "Invalid TS Point")
      else if ¬ isNumericPy p.2 then .error (.valueError "Invalid VALUE Point")
      else checkPoints rest

/-- Validation of all entries, in order, short-circuiting at the first
invalid point. -/
def checkEntries : List SensorEntry → Except ApiError Unit
  | [] => .ok ()
  | s :: rest =>
      match checkPoints s.data with
      | .error e => .error e
      | .ok _ => checkEntries rest

/-- Embedding of `LowLevelInternAPI.insertSensorDataBulk`
(`sxapi/low.py` lines 570-582): validate every point of every entry,
raising `ValueError` before anything is dispatched, and only when all
points are numeric issue the single `PUT /sensordatabulk`. -/
def insertSensorDataBulk (c : Client) (sensordata : List SensorEntry)
    (r : HttpResponse) : List IssuedRequest × Except ApiError String :=
  match checkEntries sensordata with
  | .error e => ([], .error e)
  | .ok _ => put c "/sensordatabulk" r

/-- Embedding of `LowLevelInternAPI.updateSensorDataBulk`
(`sxapi/low.py` lines 589-599): same validation, then a single
`POST /sensordatabulk`. -/
def updateSensorDataBulk (c : Client) (sensordata : List SensorEntry)
    (r : HttpResponse) : List IssuedRequest × Except ApiError String :=
  match checkEntries sensordata with
  | .error e => ([], .error e)
  | .ok _ => post c "/sensordatabulk" r

/-- Embedding of `LowLevelInternAPI.insertGroupSensorDataBulk`
(`sxapi/low.py` lines 874-886): same validation, then a single
`PUT /groupsensordatabulk`. -/
def insertGroupSensorDataBulk (c : Client) (sensordata : List SensorEntry)
    (r : HttpResponse) : List IssuedRequest × Except ApiError String :=
  match checkEntries sensordata with
  | .error e => ([], .error e)
  | .ok _ => put c "/groupsensordatabulk" r

/-- Declarative counterpart of the validation loop: every point of
every entry has a numeric timestamp and a numeric value. -/
def allNumeric (sensordata : List SensorEntry) : Bool :=
  sensordata.all (fun s => s.data.all (fun p => isNumericPy p.1 && isNumericPy p.2))

/-- Mock paginated server with pages of sizes 100, 100, 37 (spec
section 8, pagination example): offset 0 yields a full page pointing
to offset 100, offset 100 a full page pointing to 200, any other
offset the final short page of 37 records. -/
def mockPages3 : Int → Page Nat := fun o =>
  if o = 0 then ⟨List.replicate 100 0, 100⟩
  else if o = 100 then ⟨List.replicate 100 0, 200⟩
  else ⟨List.replicate 37 0, 237⟩

/-- Mock paginated server with pages of sizes 100, 100, 100, 0 (spec
section 8): three full pages followed by a terminal empty page. -/
def mockPages4 : Int → Page Nat := fun o =>
  if o = 0 then ⟨List.replicate 100 0, 100⟩
  else if o = 100 then ⟨List.replicate 100 0, 200⟩
  else if o = 200 then ⟨List.replicate 100 0, 300⟩
  else ⟨[], 300⟩

/-! Theorems.  Each claim of the specification gets one theorem, with
helper lemmas preceding the claims that need them. -/

/-- C1: for every client whose session expiration timestamp lies in
the future (now - expiration < 0), `_login` returns success
immediately, leaves the client unchanged, and issues no HTTP request;
and for every client configured with an API key whose session is due,
`_login` installs the key as bearer credential, sets the expiration
365 days ahead, and succeeds — and an API-key client never issues a
token-acquisition HTTP call. -/
theorem C1_ensure_session_reuse_and_apikey (c : Client) (now : Int) (resp : TokenResponse) :
    (now - c.session_expiration < 0 → login c now resp = ⟨[], .ok c⟩) ∧
    (∀ k, c.api_key = some k → ¬ now - c.session_expiration < 0 →
      login c now resp =
        ⟨[], .ok { c with
                   session_key := some k,
                   auth_header := some ("Bearer " ++ k),
                   session_expiration := now + 365 * 24 * 60 * 60 }⟩) ∧
    (c.api_key.isSome = true → (login c now resp).calls = []) := by
  refine ⟨fun h => by simp [login, h], fun k hk h => by simp [login, h, hk], fun hk => ?_⟩
  obtain ⟨k, hk⟩ := Option.isSome_iff_exists.mp hk
  by_cases h : now - c.session_expiration < 0 <;> simp [login, h, hk]

/-- Witness for C1: a client with expiration 10 ensured at time 5 is
returned unchanged with no HTTP call, and an API-key client with
expiration 0 ensured at time 5 gets the key installed. -/
theorem C1_witness :
    (login ⟨"b", none, none, none, 10, none, none, false⟩ 5 ⟨200, none⟩ =
      ⟨[], .ok ⟨"b", none, none, none, 10, none, none, false⟩⟩) ∧
    (login ⟨"b", none, none, some "k", 0, none, none, false⟩ 5 ⟨200, none⟩ =
      ⟨[], .ok ⟨"b", none, none, some "k", 5 + 365 * 24 * 60 * 60,
                some "k", some "Bearer k", false⟩⟩) :=
  ⟨(C1_ensure_session_reuse_and_apikey ⟨"b", none, none, none, 10, none, none, false⟩
      5 ⟨200, none⟩).1 (by decide),
   (C1_ensure_session_reuse_and_apikey ⟨"b", none, none, some "k", 0, none, none, false⟩
      5 ⟨200, none⟩).2.1 "k" rfl (by decide)⟩

/-- C4 as frozen is refuted at a non-error, non-200 status: the claim
says any non-200 status other than 401/409/422 propagates as a generic
HTTP error, but `raise_for_status()` raises only for statuses in
[400, 600), so a 204 answer with a token body falls through exactly
like a 200 and installs the token. -/
theorem C4_counterexample :
    login ⟨"b", some "e", some "p", none, 0, none, none, false⟩ 5 ⟨204, some "abc"⟩ =
      ⟨[⟨.GET, "/user/get_token", true⟩],
       .ok ⟨"b", some "e", some "p", none, 5 + 23 * 60 * 60,
            some "abc", some "Bearer abc", false⟩⟩ := rfl

/-- C4 amended: during token acquisition (no API key, session due), a
missing email or password raises `ConfigurationError` without any HTTP
call; a token response of status 401, 409 or 422 raises
`InvalidCredentialsError`; any other status in the error range
[400, 600) propagates as a generic HTTP error; and on status 200 the
token from the JSON body is installed as bearer credential with the
expiration set 23 hours ahead.  (Statuses outside [400, 600) other
than 200 fall through to token extraction like a 200 does.) -/
theorem C4_login_error_handling (c : Client) (now : Int) (resp : TokenResponse)
    (hkey : c.api_key = none) (hexp : ¬ now - c.session_expiration < 0) :
    ((c.email = none ∨ c.password = none) →
      login c now resp =
        ⟨[], .error (.configurationError "email and password are needed for API access")⟩) ∧
    (∀ e p, c.email = some e → c.password = some p →
      ((resp.status = 401 ∨ resp.status = 409 ∨ resp.status = 422 →
         login c now resp =
           ⟨[⟨.GET, "/user/get_token", true⟩], .error .invalidCredentials⟩) ∧
       (400 ≤ resp.status → resp.status < 600 →
         ¬ (resp.status = 401 ∨ resp.status = 409 ∨ resp.status = 422) →
         login c now resp =
           ⟨[⟨.GET, "/user/get_token", true⟩],
            .error (.httpError resp.status "raise_for_status")⟩) ∧
       (∀ tk, resp.status = 200 → resp.token = some tk →
         login c now resp =
           ⟨[⟨.GET, "/user/get_token", true⟩],
            .ok { c with
                  session_key := some tk,
                  auth_header := some ("Bearer " ++ tk),
                  session_expiration := now + 23 * 60 * 60 }⟩))) := by
  refine ⟨fun h => ?_, fun e p he hp => ⟨fun hs => ?_, fun h4 h6 hn => ?_, fun tk h200 htk => ?_⟩⟩
  · rcases h with h | h
    · rcases hp : c.password with _ | p <;> simp [login, hexp, hkey, h, hp]
    · rcases he : c.email with _ | e <;> simp [login, hexp, hkey, h, he]
  · have h1 : ¬ (resp.status = 200 ∨ ¬ (400 ≤ resp.status ∧ resp.status < 600)) := by omega
    simp only [login, if_neg hexp, hkey, he, hp, if_neg h1, if_pos hs]
  · have h1 : ¬ (resp.status = 200 ∨ ¬ (400 ≤ resp.status ∧ resp.status < 600)) := by omega
    simp only [login, if_neg hexp, hkey, he, hp, if_neg h1, if_neg hn]
  · have h1 : resp.status = 200 ∨ ¬ (400 ≤ resp.status ∧ resp.status < 600) := Or.inl h200
    simp only [login, if_neg hexp, hkey, he, hp, if_pos h1, htk]

/-- Witness for C4 at concrete inputs: a client missing the password,
and a full-credential client receiving statuses 401, 500 and 200. -/
theorem C4_witness :
    (login ⟨"b", some "e", none, none, 0, none, none, false⟩ 5 ⟨200, none⟩ =
      ⟨[], .error (.configurationError "email and password are needed for API access")⟩) ∧
    (login ⟨"b", some "e", some "p", none, 0, none, none, false⟩ 5 ⟨401, none⟩ =
      ⟨[⟨.GET, "/user/get_token", true⟩], .error .invalidCredentials⟩) ∧
    (login ⟨"b", some "e", some "p", none, 0, none, none, false⟩ 5 ⟨500, none⟩ =
      ⟨[⟨.GET, "/user/get_token", true⟩], .error (.httpError 500 "raise_for_status")⟩) ∧
    (login ⟨"b", some "e", some "p", none, 0, none, none, false⟩ 5 ⟨200, some "abc"⟩ =
      ⟨[⟨.GET, "/user/get_token", true⟩],
       .ok ⟨"b", some "e", some "p", none, 5 + 23 * 60 * 60,
            some "abc", some "Bearer abc", false⟩⟩) :=
  ⟨(C4_login_error_handling ⟨"b", some "e", none, none, 0, none, none, false⟩
      5 ⟨200, none⟩ rfl (by decide)).1 (Or.inr rfl),
   ((C4_login_error_handling ⟨"b", some "e", some "p", none, 0, none, none, false⟩
      5 ⟨401, none⟩ rfl (by decide)).2 "e" "p" rfl rfl).1 (Or.inl rfl),
   ((C4_login_error_handling ⟨"b", some "e", some "p", none, 0, none, none, false⟩
      5 ⟨500, none⟩ rfl (by decide)).2 "e" "p" rfl rfl).2.1
     (by decide) (by decide) (by decide),
   ((C4_login_error_handling ⟨"b", some "e", some "p", none, 0, none, none, false⟩
      5 ⟨200, some "abc"⟩ rfl (by decide)).2 "e" "p" rfl rfl).2.2 "abc" rfl rfl⟩

set_option maxRecDepth 8000 in
/-- C2: the pagination loop of `get_animal_events` follows the
data/next_offset page shape: a short page terminates the loop
immediately with one fetch, a full page's data is accumulated in order
and the loop continues at the server-supplied next_offset (one-step
unfolding); pages of sizes 100, 100, 37 with limit 100 yield exactly 3
fetches and 237 records; pages of sizes 100, 100, 100, 0 yield 4
fetches; and against a server all of whose pages are full the loop
never terminates, so termination happens exactly at a short page. -/
theorem C2_pagination :
    (∀ (α : Type) (server : Int → Page α) (limit : Nat) (offset : Int) (fuel : Nat),
      get_animal_events server limit offset (fuel + 1) =
        if (server offset).data.length < limit then some ((server offset).data, 1)
        else
          match get_animal_events server limit (server offset).next_offset fuel with
          | none => none
          | some (rest, n) => some ((server offset).data ++ rest, n + 1)) ∧
    get_animal_events mockPages3 100 0 10 = some (List.replicate 237 0, 3) ∧
    get_animal_events mockPages4 100 0 10 = some (List.replicate 300 0, 4) ∧
    (∀ (α : Type) (server : Int → Page α) (limit : Nat),
      (∀ o, ¬ (server o).data.length < limit) →
      ∀ (offset : Int) (fuel : Nat), get_animal_events server limit offset fuel = none) := by
  refine ⟨fun α server limit offset fuel => rfl, by decide, by decide, ?_⟩
  intro α server limit h offset fuel
  induction fuel generalizing offset with
  | zero => rfl
  | succ n ih => simp [get_animal_events, h offset, ih]

/-- Witness for C2: the final conjunct of the theorem applied to a
server that always answers a full page of 100 records. -/
theorem C2_witness :
    get_animal_events (fun _ => (⟨List.replicate 100 0, 0⟩ : Page Nat)) 100 0 5 = none :=
  C2_pagination.2.2.2 Nat (fun _ => ⟨List.replicate 100 0, 0⟩) 100
    (fun _ => by simp) 0 5

/-- C3: every POST and every PUT is handed to the transport as exactly
one request with allow_redirects disabled, so a redirect is never
followed or re-issued against the redirect target, and a 301 response
makes both operations fail with an error. -/
theorem C3_write_redirect_error (c : Client) (path : String) (r : HttpResponse) :
    (post c path r).1 = [⟨.POST, to_url c path, false⟩] ∧
    (put c path r).1 = [⟨.PUT, to_url c path, false⟩] ∧
    (r.status = 301 →
      (post c path r).2 = .error (.httpError 301 "301 redirect for POST") ∧
      (put c path r).2 = .error (.httpError 301 "301 redirect for PUT")) := by
  refine ⟨rfl, rfl, fun h => ⟨?_, ?_⟩⟩ <;> simp [post, put, h]

/-- Witness for C3: a 301 response to concrete POST and PUT calls. -/
theorem C3_witness :
    (post ⟨"b", none, none, some "k", 0, none, none, false⟩ "/p" ⟨301, none, "x"⟩).2 =
      .error (.httpError 301 "301 redirect for POST") ∧
    (put ⟨"b", none, none, some "k", 0, none, none, false⟩ "/p" ⟨301, none, "x"⟩).2 =
      .error (.httpError 301 "301 redirect for PUT") :=
  (C3_write_redirect_error ⟨"b", none, none, some "k", 0, none, none, false⟩
    "/p" ⟨301, none, "x"⟩).2.2 rfl

/-- Length of the history after one tracking step: the append adds one
record and the overflow eviction removes exactly one when the capacity
is exceeded. -/
theorem track_request_length (h : List Req) (r : Req) :
    (track_request h r).length = if h.length + 1 > 100 then h.length else h.length + 1 := by
  simp only [track_request]
  split <;> split <;> simp_all

/-- Closed form of the history after any sequence of tracking steps
starting from the empty history: only the most recent 100 records
remain, the oldest having been evicted first. -/
theorem foldl_track_request (l : List Req) :
    List.foldl track_request [] l = l.drop (l.length - 100) := by
  induction l using List.reverseRecOn with
  | nil => rfl
  | append_singleton xs a ih =>
      rw [List.foldl_append, List.foldl_cons, List.foldl_nil, ih]
      unfold track_request
      by_cases hn : xs.length < 100
      · have h1 : xs.length - 100 = 0 := by omega
        have h2 : xs.length + 1 - 100 = 0 := by omega
        simp only [h1, h2, List.drop_zero, List.length_append, List.length_cons,
          List.length_nil]
        rw [if_neg (by omega)]
      · have hd : (xs.drop (xs.length - 100)).length = 100 := by
          simp only [List.length_drop]; omega
        rw [if_pos (by
          simp only [List.length_append, List.length_cons, List.length_nil, hd]
          omega)]
        rw [List.drop_append_eq_append_drop, List.drop_append_eq_append_drop,
            List.drop_drop, hd]
        simp only [List.length_append, List.length_cons, List.length_nil]
        have e1 : 1 - 100 = 0 := by omega
        have e2 : xs.length + (0 + 1) - 100 - xs.length = 0 := by omega
        have e3 : xs.length - 100 + 1 = xs.length + (0 + 1) - 100 := by omega
        rw [e1, e2, e3]

/-- C5: after each append the request history holds at most 100
records, and eviction is FIFO from the front: any sequence of 150
sequential calls starting from an empty history leaves exactly the
most recent 100 records (the oldest 50 are dropped). -/
theorem C5_history_capacity :
    (∀ (h : List Req) (r : Req), h.length ≤ 100 → (track_request h r).length ≤ 100) ∧
    (∀ l : List Req, l.length = 150 → List.foldl track_request [] l = l.drop 50) := by
  constructor
  · intro h r hle
    rw [track_request_length]
    split <;> omega
  · intro l hl
    rw [foldl_track_request, hl]

/-- Witness for C5: one tracking step on the empty history, and 150
identical sequential calls keeping exactly the last 100 records. -/
theorem C5_witness :
    (track_request [] ⟨"u", 200, 0, 0⟩).length ≤ 100 ∧
    List.foldl track_request [] (List.replicate 150 (⟨"u", 200, 0, 0⟩ : Req)) =
      (List.replicate 150 (⟨"u", 200, 0, 0⟩ : Req)).drop 50 :=
  ⟨C5_history_capacity.1 [] ⟨"u", 200, 0, 0⟩ (by decide),
   C5_history_capacity.2 (List.replicate 150 ⟨"u", 200, 0, 0⟩) (by simp)⟩

/-- C6: on a client not configured for concurrent mode `async_get`
fails with `UnsupportedOperationError` (the Python
`NotImplementedError`) and issues nothing; on a concurrently
configured client it issues one GET per path in submission order
before resolving anything, resolves in the same order, and the result
sequence is the ordered sequence of `(body, url)` pairs of the
successful resolutions — entries whose resolution raised (status in
[400, 600)) are simply absent and do not abort the rest. -/
theorem C6_async_get (c : Client) (paths : List String) (server : String → HttpResponse) :
    (c.isAsync = false → async_get c paths server = ([], .error .unsupportedOperation)) ∧
    (c.isAsync = true →
      (async_get c paths server).1 = paths.map (fun p => ⟨.GET, to_url c p, true⟩) ∧
      (async_get c paths server).2 = .ok (paths.filterMap (fun p =>
        if 400 ≤ (server (to_url c p)).status ∧ (server (to_url c p)).status < 600 then
          none
        else some ((server (to_url c p)).body, to_url c p)))) := by
  constructor
  · intro h; simp [async_get, h]
  · intro h
    refine ⟨?_, ?_⟩ <;> simp [async_get, h, List.filterMap_map, Function.comp]
    rfl

/-- Witness for C6: a synchronous client rejects the call, and an
asynchronous client fanning out over three paths of which the middle
one resolves to a 500 returns exactly the first and third results. -/
theorem C6_witness :
    (async_get ⟨"b", none, none, some "k", 0, none, none, false⟩ ["/x", "/y", "/z"]
      (fun u => if u = "b/y" then ⟨500, none, "bad"⟩ else ⟨200, none, "ok"⟩) =
      ([], .error .unsupportedOperation)) ∧
    (async_get ⟨"b", none, none, some "k", 0, none, none, true⟩ ["/x", "/y", "/z"]
      (fun u => if u = "b/y" then ⟨500, none, "bad"⟩ else ⟨200, none, "ok"⟩)).2 =
      .ok [("ok", "b/x"), ("ok", "b/z")] := by
  refine ⟨(C6_async_get _ _ _).1 rfl, ?_⟩
  rw [(C6_async_get ⟨"b", none, none, some "k", 0, none, none, true⟩ ["/x", "/y", "/z"]
      (fun u => if u = "b/y" then ⟨500, none, "bad"⟩ else ⟨200, none, "ok"⟩)).2 rfl |>.2]
  rfl

/-- C7: parameter normalization drops exactly the keys bound to the
absent sentinel None, preserves every other entry — including falsy
values such as 0, false, or an empty sequence — and keeps insertion
order: removing a None entry anywhere leaves the rest untouched, a
present entry survives in its position, and the worked example
transmits exactly a=1 and c=0. -/
theorem C7_parameter_normalization :
    (∀ (xs ys : List (String × Option PyVal)) (k : String),
      HDict (xs ++ (k, none) :: ys) = HDict (xs ++ ys)) ∧
    (∀ (xs ys : List (String × Option PyVal)) (k : String) (v : PyVal),
      HDict (xs ++ (k, some v) :: ys) = HDict xs ++ (k, v) :: HDict ys) ∧
    HDict [("a", some (.num 1)), ("b", none), ("c", some (.num 0))] =
      [("a", .num 1), ("c", .num 0)] ∧
    HDict [("a", some (.num 0)), ("b", some (.bool false)), ("c", some (.list []))] =
      [("a", .num 0), ("b", .bool false), ("c", .list [])] := by
  refine ⟨fun xs ys k => ?_, fun xs ys k v => ?_, rfl, rfl⟩ <;>
    simp [HDict, List.filterMap_append]

/-- Covering invariant of the chunking recursion: with a positive
chunk size and enough fuel, the produced sub-ranges tile the interval
exactly and each one is bounded by the chunk size. -/
theorem splitGo_covers (c t : Int) (hc : 0 < c) :
    ∀ (fuel : Nat) (f : Int), f ≤ t → (t - f).toNat ≤ fuel →
      coversRange f t (splitGo t c f fuel) = true ∧
      (splitGo t c f fuel).all (fun p => decide (p.2 - p.1 ≤ c)) = true := by
  intro fuel
  induction fuel with
  | zero =>
      intro f hf hfuel
      have hft : f = t := by omega
      subst hft
      simp [splitGo, coversRange]
  | succ n ih =>
      intro f hf hfuel
      by_cases hlt : f < t
      · have h1 : min (f + c) t ≤ t := min_le_right _ _
        have h2 : f + 1 ≤ min (f + c) t := by omega
        obtain ⟨ihc, iha⟩ := ih (min (f + c) t) h1 (by omega)
        constructor
        · simp only [splitGo, if_pos hlt, coversRange, ihc, Bool.and_true,
            beq_self_eq_true, Bool.true_and, decide_eq_true_eq]
          omega
        · simp only [splitGo, if_pos hlt, List.all_cons, iha, Bool.and_true,
            decide_eq_true_eq]
          omega
      · have hft : f = t := by omega
        subst hft
        simp [splitGo, coversRange]

/-- C8: for every start and end timestamp with start ≤ end and every
positive chunk bound, the time-range splitter yields a finite sequence
of sub-ranges covering [start, end] with no gaps and no overlaps, each
no larger than the chunk bound; and splitting [0, 250] with chunk
bound 100 yields exactly [(0,100), (100,200), (200,250)]. -/
theorem C8_split_time_range (f t c : Int) (hc : 0 < c) (hft : f ≤ t) :
    coversRange f t (splitTimeRange f t c) = true ∧
    (splitTimeRange f t c).all (fun p => decide (p.2 - p.1 ≤ c)) = true ∧
    splitTimeRange 0 250 100 = [(0, 100), (100, 200), (200, 250)] := by
  obtain ⟨h1, h2⟩ := splitGo_covers c t hc ((t - f).toNat) f hft le_rfl
  exact ⟨h1, h2, by decide⟩

/-- Witness for C8: the splitter applied to the worked example of the
specification. -/
theorem C8_witness :
    coversRange 0 250 (splitTimeRange 0 250 100) = true ∧
    splitTimeRange 0 250 100 = [(0, 100), (100, 200), (200, 250)] :=
  ⟨(C8_split_time_range 0 250 100 (by decide) (by decide)).1,
   (C8_split_time_range 0 250 100 (by decide) (by decide)).2.2⟩

/-- Looking up the assigned key after a Python dict item assignment
returns the assigned value, whether the key was overwritten in place
or appended. -/
theorem dict_get_set_self (m : List (String × PyVal)) (k : String) (v : PyVal) :
    dict_get (dict_set m k v) k = some v := by
  unfold dict_set dict_get
  by_cases h : m.any (fun p => p.1 == k)
  · rw [if_pos h]
    induction m with
    | nil => simp at h
    | cons x rest ih =>
        by_cases hx : x.1 == k
        · rw [List.map_cons, if_pos hx, List.find?_cons_of_pos _ (by simp)]
          rfl
        · rw [List.any_cons] at h
          rw [List.map_cons, if_neg hx,
              List.find?_cons_of_neg (p := fun (q : String × PyVal) => q.1 == k) _ hx]
          exact ih (by revert h; cases hb : rest.any (fun p => p.1 == k) <;> simp [hx, hb])
  · rw [if_neg h]
    have hm : m.find? (fun p => p.1 == k) = none := by
      rw [List.find?_eq_none]
      intro x hx
      exact fun hk => h (List.any_eq_true.mpr ⟨x, hx, hk⟩)
    rw [List.find?_append, hm, Option.none_or, List.find?_cons_of_pos _ (by simp)]
    rfl

/-- Looking up any other key after a Python dict item assignment is
unchanged. -/
theorem dict_get_set_other (m : List (String × PyVal)) (k k2 : String) (v : PyVal)
    (hne : k2 ≠ k) : dict_get (dict_set m k v) k2 = dict_get m k2 := by
  unfold dict_set dict_get
  by_cases h : m.any (fun p => p.1 == k)
  · rw [if_pos h]
    clear h
    induction m with
    | nil => rfl
    | cons x rest ih =>
        rw [List.map_cons]
        by_cases hx : x.1 == k
        · have hxk : x.1 = k := by simpa using hx
          rw [if_pos hx, List.find?_cons_of_neg _ (by simp [hne.symm]),
              List.find?_cons_of_neg _ (by simp [hxk, hne.symm]), ih]
        · by_cases h2 : x.1 == k2
          · rw [if_neg hx, List.find?_cons_of_pos (p := fun (q : String × PyVal) => q.1 == k2) _ h2,
                List.find?_cons_of_pos (p := fun (q : String × PyVal) => q.1 == k2) _ h2]
          · rw [if_neg hx, List.find?_cons_of_neg (p := fun (q : String × PyVal) => q.1 == k2) _ h2,
                List.find?_cons_of_neg (p := fun (q : String × PyVal) => q.1 == k2) _ h2, ih]
  · rw [if_neg h, List.find?_append, List.find?_cons_of_neg _ (by simp [hne.symm]),
        List.find?_nil, Option.or_none]

/-- C9: with an API key configured, `get_organisations` returns the
empty list and `get_user` returns exactly the apikey marker object
`[("type", "apikey")]`, both without issuing any HTTP request; without
an API key, `get_user` issues the single `GET /user` and returns the
server's user object with its `type` key set to `"email"` and every
other key unchanged. -/
theorem C9_apikey_shortcuts (c : Client) (orgs : PyVal) (u : List (String × PyVal)) :
    (∀ k, c.api_key = some k →
      get_organisations c orgs = ([], .list []) ∧
      get_user c u = ([], [("type", .str "apikey")])) ∧
    (c.api_key = none →
      get_organisations c orgs = ([⟨.GET, to_url c "/organisation", true⟩], orgs) ∧
      (get_user c u).1 = [⟨.GET, to_url c "/user", true⟩] ∧
      dict_get (get_user c u).2 "type" = some (.str "email") ∧
      (∀ k2, k2 ≠ "type" → dict_get (get_user c u).2 k2 = dict_get u k2)) := by
  constructor
  · intro k hk
    exact ⟨by simp [get_organisations, hk], by simp [get_user, hk]⟩
  · intro hk
    refine ⟨by simp [get_organisations, hk], by simp [get_user, hk], ?_, ?_⟩
    · simp only [get_user, hk]
      exact dict_get_set_self u "type" (.str "email")
    · intro k2 h2
      simp only [get_user, hk]
      exact dict_get_set_other u "type" k2 (.str "email") h2

/-- Witness for C9: a concrete API-key client short-circuits both
calls, and a credential client's `get_user` rewrites the type field of
a concrete user object. -/
theorem C9_witness :
    (get_organisations ⟨"b", none, none, some "k", 0, none, none, false⟩ (.num 7) =
      ([], .list []) ∧
     get_user ⟨"b", none, none, some "k", 0, none, none, false⟩ [("name", .str "n")] =
      ([], [("type", .str "apikey")])) ∧
    dict_get (get_user ⟨"b", some "e", some "p", none, 0, none, none, false⟩
      [("name", .str "n")]).2 "type" = some (.str "email") :=
  ⟨(C9_apikey_shortcuts ⟨"b", none, none, some "k", 0, none, none, false⟩
      (.num 7) [("name", .str "n")]).1 "k" rfl,
   ((C9_apikey_shortcuts ⟨"b", some "e", some "p", none, 0, none, none, false⟩
      (.num 7) [("name", .str "n")]).2 rfl).2.2.1⟩

/-- The point-validation loop succeeds exactly on all-numeric point
lists and otherwise raises a ValueError. -/
theorem checkPoints_spec (l : List (PyVal × PyVal)) :
    (l.all (fun p => isNumericPy p.1 && isNumericPy p.2) = true ∧ checkPoints l = .ok ()) ∨
    (l.all (fun p => isNumericPy p.1 && isNumericPy p.2) = false ∧
      ∃ m, checkPoints l = .error (.valueError m)) := by
  induction l with
  | nil => exact Or.inl ⟨rfl, rfl⟩
  | cons p rest ih =>
      by_cases h1 : isNumericPy p.1
      · by_cases h2 : isNumericPy p.2
        · rcases ih with ⟨ha, hc⟩ | ⟨ha, m, hc⟩
          · exact Or.inl ⟨by simp [List.all_cons, h1, h2, ha],
              by simp [checkPoints, h1, h2, hc]⟩
          · exact Or.inr ⟨by simp [List.all_cons, ha],
              m, by simp [checkPoints, h1, h2, hc]⟩
        · exact Or.inr ⟨by simp [List.all_cons, h2],
            "Invalid VALUE Point", by simp [checkPoints, h1, h2]⟩
      · exact Or.inr ⟨by simp [List.all_cons, h1],
          "Invalid TS Point", by simp [checkPoints, h1]⟩

/-- The entry-validation loop succeeds exactly when every point of
every entry is numeric, and otherwise raises a ValueError. -/
theorem checkEntries_spec (sd : List SensorEntry) :
    (allNumeric sd = true ∧ checkEntries sd = .ok ()) ∨
    (allNumeric sd = false ∧ ∃ m, checkEntries sd = .error (.valueError m)) := by
  induction sd with
  | nil => exact Or.inl ⟨rfl, rfl⟩
  | cons s rest ih =>
      rcases checkPoints_spec s.data with ⟨ha, hc⟩ | ⟨ha, m, hc⟩
      · rcases ih with ⟨hb, hd⟩ | ⟨hb, m2, hd⟩
        · exact Or.inl ⟨by simp only [allNumeric, List.all_cons] at hb ⊢; simp [ha, hb],
            by simp [checkEntries, hc, hd]⟩
        · exact Or.inr ⟨by simp only [allNumeric, List.all_cons] at hb ⊢; simp [ha, hb],
            m2, by simp [checkEntries, hc, hd]⟩
      · exact Or.inr ⟨by simp only [allNumeric, List.all_cons]; simp [ha],
          m, by simp [checkEntries, hc]⟩

/-- C10: each bulk sensor-data write validates every point of every
entry before dispatching: if any point has a non-numeric timestamp or
value, the call raises `ValueError` and no HTTP request is issued, so
an invalid batch never yields a partial upload; when every point is
numeric, exactly one write request (PUT /sensordatabulk,
POST /sensordatabulk, PUT /groupsensordatabulk respectively) is
sent. -/
theorem C10_bulk_validation (c : Client) (sd : List SensorEntry) (r : HttpResponse) :
    (allNumeric sd = false →
      ((insertSensorDataBulk c sd r).1 = [] ∧
        ∃ m, (insertSensorDataBulk c sd r).2 = .error (.valueError m)) ∧
      ((updateSensorDataBulk c sd r).1 = [] ∧
        ∃ m, (updateSensorDataBulk c sd r).2 = .error (.valueError m)) ∧
      ((insertGroupSensorDataBulk c sd r).1 = [] ∧
        ∃ m, (insertGroupSensorDataBulk c sd r).2 = .error (.valueError m))) ∧
    (allNumeric sd = true →
      (insertSensorDataBulk c sd r).1 = [⟨.PUT, to_url c "/sensordatabulk", false⟩] ∧
      (updateSensorDataBulk c sd r).1 = [⟨.POST, to_url c "/sensordatabulk", false⟩] ∧
      (insertGroupSensorDataBulk c sd r).1 =
        [⟨.PUT, to_url c "/groupsensordatabulk", false⟩]) := by
  rcases checkEntries_spec sd with ⟨ha, hc⟩ | ⟨ha, m, hc⟩
  · refine ⟨fun hf => (by rw [ha] at hf; cases hf), fun _ => ?_⟩
    exact ⟨by simp [insertSensorDataBulk, hc, put],
      by simp [updateSensorDataBulk, hc, post],
      by simp [insertGroupSensorDataBulk, hc, put]⟩
  · refine ⟨fun _ => ?_, fun ht => (by rw [ha] at ht; cases ht)⟩
    exact ⟨⟨by simp [insertSensorDataBulk, hc], m, by simp [insertSensorDataBulk, hc]⟩,
      ⟨by simp [updateSensorDataBulk, hc], m, by simp [updateSensorDataBulk, hc]⟩,
      ⟨by simp [insertGroupSensorDataBulk, hc], m,
        by simp [insertGroupSensorDataBulk, hc]⟩⟩

/-- Witness for C10: a batch with a string timestamp issues no request
on insert, and an all-numeric batch issues exactly the PUT. -/
theorem C10_witness :
    allNumeric [⟨"d", "m", [(.str "bad", .num 1)]⟩] = false ∧
    (insertSensorDataBulk ⟨"b", none, none, some "k", 0, none, none, false⟩
      [⟨"d", "m", [(.str "bad", .num 1)]⟩] ⟨200, none, "ok"⟩).1 = [] ∧
    allNumeric [⟨"d", "m", [(.num 0, .num 1)]⟩] = true ∧
    (insertSensorDataBulk ⟨"b", none, none, some "k", 0, none, none, false⟩
      [⟨"d", "m", [(.num 0, .num 1)]⟩] ⟨200, none, "ok"⟩).1 =
      [⟨.PUT, "b/sensordatabulk", false⟩] :=
  ⟨rfl,
   ((C10_bulk_validation ⟨"b", none, none, some "k", 0, none, none, false⟩
      [⟨"d", "m", [(.str "bad", .num 1)]⟩] ⟨200, none, "ok"⟩).1 rfl).1.1,
   rfl,
   ((C10_bulk_validation ⟨"b", none, none, some "k", 0, none, none, false⟩
      [⟨"d", "m", [(.num 0, .num 1)]⟩] ⟨200, none, "ok"⟩).2 rfl).1⟩
